import Mathlib

/-!
Verification development for a Node/Express REST backend over two relational
backends (MySQL and PostgreSQL).  The definitions below are a shallow
embedding of the code in `src/db/connection.js`, `src/routes/practica.js`
and the upload route (`router.post('/upload')`): JavaScript objects become
association lists from field names to scalar values, the database becomes an
explicit state, and each statement issued by the code is recorded in a log so
that transaction and resource-release behaviour can be stated.
-/

/-- Scalar JavaScript values as they flow through the routes: `vundefined`
models `undefined` (also the result of reading an absent field), `vnull`
models SQL/JS `null`, `vdate ms` models a `Date` built from a millisecond
count, `vdateInvalid` an invalid `Date` (built from a non-number). -/
inductive JSVal where
  | vundefined
  | vnull
  | vnum (n : Int)
  | vstr (s : String)
  | vdate (ms : Int)
  | vdateInvalid
  deriving DecidableEq, Repr

/-- A JavaScript object (a database Record): association list from field
name to value, first binding wins on lookup.  The routes only ever build
objects with distinct keys. -/
abbrev Obj := List (String × JSVal)

/-- Property read `o.k` / `o[k]` returning `none` for an absent field. -/
def getField : Obj → String → Option JSVal
  | [], _ => none
  | p :: ps, k => if p.1 = k then some p.2 else getField ps k

/-- Property read `o[k]` as JavaScript sees it: absent fields read as
`undefined`. -/
def fldv (o : Obj) (k : String) : JSVal :=
  (getField o k).getD .vundefined

/-- Property write `o.k = v`: updates the binding in place when the key is
present, otherwise appends a new binding (JS own-property creation). -/
def setField (o : Obj) (k : String) (v : JSVal) : Obj :=
  if (getField o k).isSome then
    o.map (fun p => if p.1 = k then (p.1, v) else p)
  else
    o ++ [(k, v)]

/-- Object spread `{...a, ...b}`: `b`'s fields override `a`'s on conflicting
keys; keys of `a` keep their position, new keys of `b` follow. -/
def spread (a b : Obj) : Obj :=
  a.map (fun p => match getField b p.1 with
    | some v => (p.1, v)
    | none => p)
  ++ b.filter (fun p => (getField a p.1).isNone)

theorem getField_append (l l' : Obj) (k : String) :
    getField (l ++ l') k = (getField l k).orElse (fun _ => getField l' k) := by
  induction l with
  | nil => simp [getField, Option.orElse]
  | cons p ps ih =>
    by_cases hp : p.1 = k
    · simp [getField, hp, Option.orElse]
    · simp [getField, hp, ih]

theorem getField_spreadMap (a b : Obj) (k : String) :
    getField (a.map (fun p => match getField b p.1 with
      | some v => (p.1, v)
      | none => p)) k
      = (getField a k).map (fun v => (getField b k).getD v) := by
  induction a with
  | nil => simp [getField]
  | cons p ps ih =>
    by_cases hp : p.1 = k
    · subst hp
      cases hb : getField b p.1 with
      | some v => simp [getField, hb]
      | none => simp [getField, hb]
    · cases hb : getField b p.1 with
      | some v => simp [getField, hb, hp, ih]
      | none => simp [getField, hb, hp, ih]

theorem getField_spreadFilter (a b : Obj) (k : String) :
    getField (b.filter (fun p => (getField a p.1).isNone)) k
      = if (getField a k).isSome then none else getField b k := by
  induction b with
  | nil => simp [getField]
  | cons q bs ih =>
    by_cases hq : q.1 = k
    · subst hq
      cases ha : getField a q.1 with
      | some v => simpa [getField, List.filter_cons, ha] using ih
      | none => simp [getField, List.filter_cons, ha]
    · cases ha : getField a q.1 with
      | some v => simpa [getField, List.filter_cons, ha, hq] using ih
      | none => simpa [getField, List.filter_cons, ha, hq] using ih

/-- Spread semantics at the level of field lookup: in `{...a, ...b}`, `b`'s
fields take precedence and `a`'s remaining fields survive. -/
theorem getField_spread (a b : Obj) (k : String) :
    getField (spread a b) k = (getField b k).orElse (fun _ => getField a k) := by
  unfold spread
  rw [getField_append, getField_spreadMap, getField_spreadFilter]
  cases ha : getField a k with
  | some v =>
    cases hb : getField b k with
    | some w => simp [Option.orElse]
    | none => simp [Option.orElse]
  | none =>
    cases hb : getField b k with
    | some w => simp [Option.orElse]
    | none => simp [Option.orElse]

/-! ## Placeholder Translator (`convertQuestionMarksToDollarSigns`)

`src/db/connection.js` lines 4–7:
```js
const convertQuestionMarksToDollarSigns = (sql) => {
  let index = 0;
  return sql.replace(/\?/g, () => `$${++index}`);
};
```
Each `?`, scanned left to right, is replaced by `$1`, `$2`, ….
-/

/-- Character-level worker: `i` is the number of markers already replaced
(the JS `index` counter). -/
def convQM : List Char → Nat → List Char
  | [], _ => []
  | c :: rest, i =>
    if c = '?' then ('$' :: (Nat.repr (i + 1)).data) ++ convQM rest (i + 1)
    else c :: convQM rest i

/-- `convertQuestionMarksToDollarSigns` from `src/db/connection.js`. -/
def convertQuestionMarksToDollarSigns (sql : String) : String :=
  ⟨convQM sql.data 0⟩

/-- Split a character list at every `'?'`: the result is the list of
(possibly empty) marker-free segments between consecutive markers, so the
input had `(splitQ l).length - 1` markers. -/
def splitQ : List Char → List (List Char)
  | [] => [[]]
  | c :: rest =>
    if c = '?' then [] :: splitQ rest
    else
      match splitQ rest with
      | [] => [[c]]
      | s :: ss => (c :: s) :: ss

/-- Re-join segments putting a `'?'` marker between consecutive segments. -/
def joinQ : List (List Char) → List Char
  | [] => []
  | [s] => s
  | s :: t :: rest => s ++ '?' :: joinQ (t :: rest)

/-- Join segments putting the numbered markers `$ (i+1)`, `$ (i+2)`, …
between consecutive segments: the K-th marker slot receives exactly the
number `i+K`, so markers are strictly increasing left to right. -/
def joinNumbered (i : Nat) : List (List Char) → List Char
  | [] => []
  | [s] => s
  | s :: t :: rest => s ++ ('$' :: (Nat.repr (i + 1)).data) ++ joinNumbered (i + 1) (t :: rest)

theorem splitQ_ne_nil (l : List Char) : splitQ l ≠ [] := by
  induction l with
  | nil => simp [splitQ]
  | cons c rest ih =>
    rw [splitQ]
    by_cases hc : c = '?'
    · simp [hc]
    · rw [if_neg hc]
      cases h : splitQ rest with
      | nil => simp
      | cons s ss => simp

theorem splitQ_marker_free (l : List Char) :
    ∀ s ∈ splitQ l, '?' ∉ s := by
  induction l with
  | nil =>
    intro s hs
    rw [splitQ] at hs
    rcases List.mem_singleton.mp hs with rfl
    simp
  | cons c rest ih =>
    intro s hs
    rw [splitQ] at hs
    by_cases hc : c = '?'
    · rw [if_pos hc] at hs
      rcases List.mem_cons.mp hs with rfl | hmem
      · simp
      · exact ih s hmem
    · rw [if_neg hc] at hs
      cases h : splitQ rest with
      | nil => exact absurd h (splitQ_ne_nil rest)
      | cons t ts =>
        rw [h] at hs
        simp only at hs
        rcases List.mem_cons.mp hs with rfl | hmem
        · intro hbad
          rcases List.mem_cons.mp hbad with hbad | hbad
          · exact hc hbad.symm
          · exact ih t (h ▸ List.mem_cons_self t ts) hbad
        · exact ih s (h ▸ List.mem_cons_of_mem t hmem)

theorem joinQ_splitQ (l : List Char) : joinQ (splitQ l) = l := by
  induction l with
  | nil => rw [splitQ, joinQ]
  | cons c rest ih =>
    rw [splitQ]
    by_cases hc : c = '?'
    · rw [if_pos hc]
      cases h : splitQ rest with
      | nil => exact absurd h (splitQ_ne_nil rest)
      | cons s ss =>
        rw [h] at ih
        rw [joinQ, hc]
        simpa using ih
    · rw [if_neg hc]
      cases h : splitQ rest with
      | nil => exact absurd h (splitQ_ne_nil rest)
      | cons s ss =>
        rw [h] at ih
        cases ss with
        | nil =>
          simp only
          rw [joinQ]
          rw [joinQ] at ih
          rw [ih]
        | cons t ts =>
          simp only
          rw [joinQ]
          rw [joinQ] at ih
          simpa using ih

theorem convQM_splitQ (l : List Char) (i : Nat) :
    convQM l i = joinNumbered i (splitQ l) := by
  induction l generalizing i with
  | nil => rw [convQM, splitQ, joinNumbered]
  | cons c rest ih =>
    rw [convQM, splitQ]
    by_cases hc : c = '?'
    · rw [if_pos hc, if_pos hc]
      cases h : splitQ rest with
      | nil => exact absurd h (splitQ_ne_nil rest)
      | cons s ss =>
        rw [joinNumbered]
        have := ih (i + 1)
        rw [h] at this
        simpa using this
    · rw [if_neg hc, if_neg hc]
      cases h : splitQ rest with
      | nil => exact absurd h (splitQ_ne_nil rest)
      | cons s ss =>
        have := ih i
        rw [h] at this
        cases ss with
        | nil =>
          simp only
          rw [joinNumbered]
          rw [joinNumbered] at this
          rw [this]
        | cons t ts =>
          simp only
          rw [joinNumbered]
          rw [joinNumbered] at this
          simpa using this

/-- Number of `'?'` markers in a character list. -/
def countQ (l : List Char) : Nat := l.countP (· = '?')

theorem splitQ_length (l : List Char) :
    (splitQ l).length = countQ l + 1 := by
  induction l with
  | nil => rw [splitQ]; simp [countQ]
  | cons c rest ih =>
    rw [splitQ]
    by_cases hc : c = '?'
    · rw [if_pos hc]
      simp only [List.length_cons, countQ, List.countP_cons, hc] at ih ⊢
      simp [ih]
    · rw [if_neg hc]
      cases h : splitQ rest with
      | nil => exact absurd h (splitQ_ne_nil rest)
      | cons s ss =>
        rw [h] at ih
        simp only [List.length_cons] at ih
        simp only [List.length_cons, countQ, List.countP_cons, hc]
        simp only [countQ] at ih
        simp [ih]

/-- C4: for every statement string, splitting it at its `?` markers into
marker-free segments reconstructs the input when re-joined with `?`, the
number of segments is N+1 where N is the number of markers, and the
Placeholder Translator's output is exactly those segments re-joined with
the strictly increasing numbered markers `$1 … $N`: the K-th occurrence of
`?` becomes `$K` and every character outside the markers is preserved
verbatim, in order. -/
theorem convert_markers_numbered (sql : String) :
    joinQ (splitQ sql.data) = sql.data ∧
    (∀ s ∈ splitQ sql.data, '?' ∉ s) ∧
    (splitQ sql.data).length = countQ sql.data + 1 ∧
    convertQuestionMarksToDollarSigns sql = ⟨joinNumbered 0 (splitQ sql.data)⟩ := by
  refine ⟨joinQ_splitQ _, splitQ_marker_free _, splitQ_length _, ?_⟩
  unfold convertQuestionMarksToDollarSigns
  rw [convQM_splitQ]

example :
    convertQuestionMarksToDollarSigns "SELECT * FROM t WHERE a = ? AND b = ?" =
      "SELECT * FROM t WHERE a = $1 AND b = $2" := by decide

/-! ## Database state and the statements the routes issue

The route handlers only ever issue a fixed set of statement shapes.  We
model the database as an explicit state and each statement by its semantic
effect under the MySQL backend (the adapter's `query` normalizes both
backends to the same row-sequence view; `format` renders literals that the
server then evaluates, so `query(format(SELECT …))` behaves as a select).
-/

/-- The statement shapes issued by the routes. -/
inductive Stmt where
  | txBegin
  | txCommit
  | txRollback
  /-- `SELECT * FROM table WHERE field = v` -/
  | select (table field : String) (v : JSVal)
  /-- `SELECT * FROM table` -/
  | selectAll (table : String)
  /-- `SELECT * FROM table WHERE f1 = v1 AND f2 = v2 AND f3 = v3` -/
  | select3 (table f1 : String) (v1 : JSVal) (f2 : String) (v2 : JSVal)
      (f3 : String) (v3 : JSVal)
  /-- `INSERT INTO table SET o` (or the equivalent column list form) -/
  | insert (table : String) (o : Obj)
  /-- `UPDATE table SET o WHERE field = v` -/
  | update (table : String) (o : Obj) (field : String) (v : JSVal)
  /-- `DELETE FROM table WHERE field = v` -/
  | delete (table field : String) (v : JSVal)
  deriving DecidableEq, Repr

/-- Log events: statements sent to the backend, and `connection.release()`. -/
inductive Ev where
  | stmt (s : Stmt)
  | release
  deriving DecidableEq, Repr

/-- Failures surfaced to the route handlers: a thrown JS `TypeError`
(property access or destructuring on a non-iterable / `undefined` value) or
a failed SQL statement (unknown table, or an injected fault standing for a
constraint violation / malformed statement). -/
inductive JsErr where
  | typeError
  | stmtError
  deriving DecidableEq, Repr

/-- SQL `=` comparison as used in the `WHERE` clauses: `NULL` (and a JS
`undefined` rendered into the statement) compares false with everything. -/
def sqlEq : JSVal → JSVal → Bool
  | .vundefined, _ => false
  | .vnull, _ => false
  | _, .vundefined => false
  | _, .vnull => false
  | a, b => a == b

/-- One table: its auto-increment primary-key column, the next identifier
the backend will assign, and the stored rows in insertion order. -/
structure Table where
  pk : String
  nextId : Nat
  rows : List Obj
  deriving DecidableEq, Repr

/-- The database: mapping from table name to table. -/
abbrev DB := List (String × Table)

def DB.tab : DB → String → Option Table
  | [], _ => none
  | p :: ps, t => if p.1 = t then some p.2 else DB.tab ps t

def DB.setTab : DB → String → Table → DB
  | [], _, _ => []
  | p :: ps, t, tb => if p.1 = t then (t, tb) :: DB.setTab ps t tb
                      else p :: DB.setTab ps t tb

/-- `SELECT * FROM t WHERE f = v`; `none` when the table does not exist. -/
def dbSelect (db : DB) (t f : String) (v : JSVal) : Option (List Obj) :=
  (DB.tab db t).map (fun tb => tb.rows.filter (fun r => sqlEq (fldv r f) v))

def dbSelectAll (db : DB) (t : String) : Option (List Obj) :=
  (DB.tab db t).map (·.rows)

def dbSelect3 (db : DB) (t f1 : String) (v1 : JSVal) (f2 : String) (v2 : JSVal)
    (f3 : String) (v3 : JSVal) : Option (List Obj) :=
  (DB.tab db t).map (fun tb => tb.rows.filter (fun r =>
    sqlEq (fldv r f1) v1 && sqlEq (fldv r f2) v2 && sqlEq (fldv r f3) v3))

/-- `INSERT INTO t SET o`: the stored row is `o` with the auto-increment
primary-key column set; returns the new database and the assigned id
(the okPacket's `insertId`). -/
def dbInsert (db : DB) (t : String) (o : Obj) : Option (DB × Nat) :=
  (DB.tab db t).map (fun tb =>
    (DB.setTab db t { tb with
        nextId := tb.nextId + 1,
        rows := tb.rows ++ [setField o tb.pk (.vnum tb.nextId)] },
     tb.nextId))

/-- `UPDATE t SET o WHERE f = v`: matching rows get `o`'s columns set,
other columns kept. -/
def dbUpdate (db : DB) (t : String) (o : Obj) (f : String) (v : JSVal) :
    Option DB :=
  (DB.tab db t).map (fun tb => DB.setTab db t { tb with
    rows := tb.rows.map (fun r => if sqlEq (fldv r f) v then spread r o else r) })

/-- `DELETE FROM t WHERE f = v`. -/
def dbDelete (db : DB) (t f : String) (v : JSVal) : Option DB :=
  (DB.tab db t).map (fun tb => DB.setTab db t { tb with
    rows := tb.rows.filter (fun r => !sqlEq (fldv r f) v) })

/-- Execution state threaded through a request handler: the database, the
log of issued statements and releases, a statement counter, an optional
fault-injection point (the `cnt`-th issued statement throws, standing for a
constraint violation or similar backend error), and the snapshot taken at
`BEGIN` that `ROLLBACK` restores. -/
structure ExecSt where
  db : DB
  log : List Ev
  cnt : Nat
  failAt : Option Nat
  txSnap : Option DB
  deriving DecidableEq, Repr

/-- Record one issued statement in the log. -/
def note (s : ExecSt) (st : Stmt) : ExecSt :=
  { s with log := s.log ++ [Ev.stmt st], cnt := s.cnt + 1 }

/-- Does the fault injector make the next statement fail? -/
def injected (s : ExecSt) : Bool := s.failAt = some s.cnt

def issueSelect (s : ExecSt) (t f : String) (v : JSVal) :
    Except JsErr (List Obj) × ExecSt :=
  let s1 := note s (.select t f v)
  if injected s then (.error .stmtError, s1)
  else match dbSelect s.db t f v with
    | none => (.error .stmtError, s1)
    | some rs => (.ok rs, s1)

def issueSelectAll (s : ExecSt) (t : String) :
    Except JsErr (List Obj) × ExecSt :=
  let s1 := note s (.selectAll t)
  if injected s then (.error .stmtError, s1)
  else match dbSelectAll s.db t with
    | none => (.error .stmtError, s1)
    | some rs => (.ok rs, s1)

def issueSelect3 (s : ExecSt) (t f1 : String) (v1 : JSVal) (f2 : String)
    (v2 : JSVal) (f3 : String) (v3 : JSVal) :
    Except JsErr (List Obj) × ExecSt :=
  let s1 := note s (.select3 t f1 v1 f2 v2 f3 v3)
  if injected s then (.error .stmtError, s1)
  else match dbSelect3 s.db t f1 v1 f2 v2 f3 v3 with
    | none => (.error .stmtError, s1)
    | some rs => (.ok rs, s1)

/-- Issue an insert; on success the payload is the okPacket's `insertId`. -/
def issueInsert (s : ExecSt) (t : String) (o : Obj) :
    Except JsErr Nat × ExecSt :=
  let s1 := note s (.insert t o)
  if injected s then (.error .stmtError, s1)
  else match dbInsert s.db t o with
    | none => (.error .stmtError, s1)
    | some (db1, iid) => (.ok iid, { s1 with db := db1 })

def issueUpdate (s : ExecSt) (t : String) (o : Obj) (f : String) (v : JSVal) :
    Except JsErr Unit × ExecSt :=
  let s1 := note s (.update t o f v)
  if injected s then (.error .stmtError, s1)
  else match dbUpdate s.db t o f v with
    | none => (.error .stmtError, s1)
    | some db1 => (.ok (), { s1 with db := db1 })

def issueDelete (s : ExecSt) (t f : String) (v : JSVal) :
    Except JsErr Unit × ExecSt :=
  let s1 := note s (.delete t f v)
  if injected s then (.error .stmtError, s1)
  else match dbDelete s.db t f v with
    | none => (.error .stmtError, s1)
    | some db1 => (.ok (), { s1 with db := db1 })

/-- `connection.query('BEGIN')`: takes the snapshot `ROLLBACK` restores. -/
def issueBegin (s : ExecSt) : ExecSt :=
  { note s .txBegin with txSnap := some s.db }

/-- `connection.query('COMMIT')`. -/
def issueCommit (s : ExecSt) : ExecSt :=
  { note s .txCommit with txSnap := none }

/-- `connection.query('ROLLBACK')`: restores the snapshot taken at `BEGIN`. -/
def issueRollback (s : ExecSt) : ExecSt :=
  { note s .txRollback with db := s.txSnap.getD s.db, txSnap := none }

/-- `connection.release()`. -/
def rel (s : ExecSt) : ExecSt :=
  { s with log := s.log ++ [Ev.release] }

/-! ## HTTP responses and the practica CRUD handlers (`src/routes/practica.js`) -/

/-- Response bodies the handlers produce. -/
inductive Body where
  /-- `{ message: m }` -/
  | msg (m : String)
  /-- `{ error: m }` -/
  | errMsg (m : String)
  /-- a JSON array of records -/
  | rows (rs : List Obj)
  /-- a single JSON record -/
  | record (o : Obj)
  deriving DecidableEq, Repr

/-- An HTTP response: status code and body. -/
structure Resp where
  status : Nat
  body : Body
  deriving DecidableEq, Repr

/-- `router.get('/')` (lines 72–83): select all rows, 200 with the rows on
success, 500 with a generic error body on a throw, release in `finally`. -/
def getAllPracticaHandler (s : ExecSt) : Resp × ExecSt :=
  match issueSelectAll s "practica" with
  | (.ok rows, s1) => (⟨200, .rows rows⟩, rel s1)
  | (.error _, s1) => (⟨500, .errMsg "Error al obtener las prácticas."⟩, rel s1)

/-- The eleven body fields the practica POST/PUT handlers destructure. -/
def practicaFields : List String :=
  ["clasificaciones", "no_folio", "fecha_entrega_facultad",
   "numero_practica_inscribe", "fecha_inscripcion_materia", "nrc",
   "programa", "documento_estudiante", "id_empresa", "id_contacto", "id_jefe"]

/-- The column/value set built from the destructured body fields (absent
fields destructure to `undefined`). -/
def practicaBodyObj (body : Obj) : Obj :=
  practicaFields.map (fun f => (f, fldv body f))

/-- `router.put('/:id')` (lines 381–394): one UPDATE by `id`, then 200 with
the success message; no existence check, the update's match count is never
inspected; 500 only on a throw; release in `finally`. -/
def putPracticaHandler (s : ExecSt) (id : JSVal) (body : Obj) : Resp × ExecSt :=
  match issueUpdate s "practica" (practicaBodyObj body) "id" id with
  | (.ok _, s1) => (⟨200, .msg "Práctica actualizada correctamente."⟩, rel s1)
  | (.error _, s1) => (⟨500, .errMsg "Error al actualizar la práctica."⟩, rel s1)

/-- `router.delete('/:id')` (lines 432–443): one DELETE by `id`, then 200
with the success message; no existence check; 500 only on a throw; release
in `finally`. -/
def deletePracticaHandler (s : ExecSt) (id : JSVal) : Resp × ExecSt :=
  match issueDelete s "practica" "id" id with
  | (.ok _, s1) => (⟨200, .msg "Práctica eliminada correctamente."⟩, rel s1)
  | (.error _, s1) => (⟨500, .errMsg "Error al eliminar la práctica."⟩, rel s1)

/-! ## Result-shape normalization and the POST handler (`queryWrapper`, C2)

`src/db/connection.js` lines 9–15 normalize what each driver resolves to;
`src/routes/practica.js` lines 288–301 is the POST handler consuming it.
-/

/-- A value the adapter's `query` can return to a route: a JS array of row
objects, or the mysql2 `ResultSetHeader` okPacket — a plain (non-iterable)
object carrying `insertId`. -/
inductive QVal where
  | arr (rows : List Obj)
  | okPacket (insertId : Nat)
  deriving DecidableEq, Repr

/-- What the raw driver call resolves to: mysql2 resolves the pair
`[results, fields]` (with `results` an array of rows for a select and an
okPacket for an insert/update); pg resolves an object with a `rows` array
plus metadata. -/
inductive DriverResult where
  | mysqlRes (results : QVal)
  | pgRes (rows : List Obj)
  deriving DecidableEq, Repr

/-- `queryWrapper`'s normalization (line 14):
`result.rows ? result.rows : result[0]`.  The mysql2 pair is an array whose
`rows` property is `undefined` (falsy), so the wrapper returns element 0,
i.e. `results`; the pg result has a `rows` array property, truthy even when
empty (an empty array is truthy in JS), so the wrapper returns it. -/
def queryWrapperNorm : DriverResult → QVal
  | .mysqlRes results => results
  | .pgRes rows => .arr rows

/-- Array destructuring `const [x] = v`: element 0 of an array (possibly
`undefined`), a thrown `TypeError` on a non-iterable plain object. -/
def jsDestructureHead : QVal → Except JsErr (Option Obj)
  | .arr rows => .ok rows.head?
  | .okPacket _ => .error .typeError

/-- `router.post('/')` (lines 288–301), given the request body and the
driver-level result of the (successful) INSERT statement.  The handler runs
the insert through the adapter, then does `const [result] = …` on the
adapter's already-normalized value and reads `result.insertId` to build the
201 echo body `{ id: result.insertId, …fields }`; `catch` maps any throw to
a 500 with a generic error body. -/
def postPracticaHandler (body : Obj) (dr : DriverResult) : Resp :=
  match jsDestructureHead (queryWrapperNorm dr) with
  | .error _ => ⟨500, .errMsg "Error al crear la práctica."⟩
  | .ok none => ⟨500, .errMsg "Error al crear la práctica."⟩
  | .ok (some r) => ⟨201, .record (("id", fldv r "insertId") :: practicaBodyObj body)⟩

/-! ## The postgres `format` (`getConnection`, postgres branch, C3)

`src/db/connection.js` lines 30–32:
```js
format: (sql, params) => {
  return sql.replace(/\?/g, (_, i) => `$${params[i - 1]}`);
}
```
For a regex with no capture groups, the replacer's second argument is the
match *offset* in the original string, so each `?` at character offset `i`
is replaced by `"$" + String(params[i - 1])`.
-/

/-- The second argument of `format`: the parameter array for the selects,
or (for the `INSERT INTO t SET ?` shorthand) the record object itself. -/
inductive PgParams where
  | plist (vs : List JSVal)
  | pobj (o : Obj)
  deriving DecidableEq, Repr

/-- JS `String(v)` as it appears inside the template literal.  (The exact
rendering JavaScript uses for `Date` objects is not needed by any theorem
below and is abbreviated.) -/
def jsToString : JSVal → String
  | .vundefined => "undefined"
  | .vnull => "null"
  | .vnum n => toString n
  | .vstr s => s
  | .vdate ms => "Date(" ++ toString ms ++ ")"
  | .vdateInvalid => "Invalid Date"

/-- `params[i - 1]`: array indexing returns `undefined` out of range (and
for the negative index `-1` arising at offset 0); on a record object a
numeric key is absent, so the access yields `undefined`. -/
def pgIndex (ps : PgParams) (i : Int) : JSVal :=
  match ps with
  | .plist vs => if i < 0 then .vundefined else vs.getD i.toNat .vundefined
  | .pobj _ => .vundefined

/-- Character-level worker for the postgres `format`: `i` is the current
character offset in the original string. -/
def pgFormatAux (ps : PgParams) : List Char → Nat → List Char
  | [], _ => []
  | c :: rest, i =>
    if c = '?' then
      ('$' :: (jsToString (pgIndex ps ((i : Int) - 1))).data) ++ pgFormatAux ps rest (i + 1)
    else c :: pgFormatAux ps rest (i + 1)

/-- The `format` capability of the postgres branch of `getConnection`. -/
def pgFormat (sql : String) (ps : PgParams) : String :=
  ⟨pgFormatAux ps sql.data 0⟩

/-! ## Get-Or-Create (`src/db/connection.js` lines 39–62)

```js
const getOrCreate = async (connection, table, data, uniqueField) => {
  const selectQuery = connection.format(`SELECT * FROM ${table} WHERE ${uniqueField} = ?`, [data[uniqueField]]);
  const rows = await connection.query(selectQuery);
  if (rows.length > 0) return rows[0];
  const insertQuery = connection.format(`INSERT INTO ${table} SET ?`, data);
  const result = await connection.query(insertQuery);
  data.id = result.insertId || result[0]?.id;
  const selectQuery2 = connection.format(`SELECT * FROM ${table} WHERE ${uniqueField} = ?`, [data[uniqueField]]);
  const rows2 = await connection.query(selectQuery2);
  if (rows2.length > 0) return { ...data, ...rows2[0] };
  return data;
};
```
(the `try`/`catch` only logs and re-throws, so errors propagate unchanged).
The embedding is against the MySQL backend, whose `format` renders working
literal statements; the payload carries both the returned Record and the
caller's `data` object as it stands after the call, since the JS code
mutates it in place.
-/

/-- The value `result.insertId || result[0]?.id` assigned to `data.id`: on
the MySQL okPacket, `insertId` is the assigned id (truthy unless 0) and
`result[0]` is `undefined`, so a zero `insertId` leaves `undefined`. -/
def insertIdVal (iid : Nat) : JSVal :=
  if iid = 0 then .vundefined else .vnum iid

/-- `getOrCreate`: returns `(returned record, caller's record after the
call)` (or the propagated error) together with the final state. -/
def getOrCreateE (s : ExecSt) (table : String) (data : Obj) (uniqueField : String) :
    Except JsErr (Obj × Obj) × ExecSt :=
  match issueSelect s table uniqueField (fldv data uniqueField) with
  | (.error e, s1) => (.error e, s1)
  | (.ok rows, s1) =>
    match rows with
    | r :: _ => (.ok (r, data), s1)
    | [] =>
      match issueInsert s1 table data with
      | (.error e, s2) => (.error e, s2)
      | (.ok iid, s2) =>
        let data1 := setField data "id" (insertIdVal iid)
        match issueSelect s2 table uniqueField (fldv data1 uniqueField) with
        | (.error e, s3) => (.error e, s3)
        | (.ok rows2, s3) =>
          match rows2 with
          | r2 :: _ => (.ok (spread data1 r2, data1), s3)
          | [] => (.ok (data1, data1), s3)

/-! ## The bulk import (`router.post('/upload')`, `src/unnamed/part_002`)

Lines 84–152: one connection, `BEGIN`, per spreadsheet row five
Get-Or-Create resolutions followed by the internship lookup/update/insert,
then `COMMIT` and a 200 on success, or `ROLLBACK` and a 500 in `catch`,
with `connection.release()` in `finally`.
-/

/-- JS numeric coercion used by the date arithmetic (`row[col] - 25569`):
numbers are themselves, numeric strings coerce, `null` coerces to 0,
`undefined` and non-numeric strings give NaN (`none`).  (Fractional
spreadsheet serials are outside this integer-valued model.) -/
def jsToNumber : JSVal → Option Int
  | .vnum n => some n
  | .vstr s => s.toInt?
  | .vnull => some 0
  | .vdate ms => some ms
  | _ => none

/-- `new Date((serial - (25567 + 2)) * 86400 * 1000)`: spreadsheet serial
dates converted to JS dates with a fixed epoch offset; a NaN operand gives
an invalid Date. -/
def excelDate (v : JSVal) : JSVal :=
  match jsToNumber v with
  | some n => .vdate ((n - (25567 + 2)) * 86400 * 1000)
  | none => .vdateInvalid

/-- JS `v > 0` as used in `practicaRows.length > 0`: numbers compare
numerically, numeric strings coerce, everything else (including
`undefined`, whose comparison is NaN) is `false`. -/
def jsGTzero : JSVal → Bool
  | .vnum n => 0 < n
  | .vstr s => match s.toInt? with | some n => 0 < n | none => false
  | .vdate ms => 0 < ms
  | _ => false

/-- The body of the per-row loop (lines 89–141): resolve the five entities
via `getOrCreate`, build the internship record, then
```js
const [practicaRows] = await connection.query(
  `SELECT * FROM p_practica WHERE id_estudiante = ? AND id_empresa = ? AND id_programa = ?`, [...]);
if (practicaRows.length > 0) {
  await connection.query(`UPDATE p_practica SET ? WHERE id_practica = ?`, [practicaData, practicaRows[0].id_practica]);
} else {
  await connection.query(`INSERT INTO p_practica SET ?`, practicaData);
}
```
`connection.query` already returns the normalized row array, so the array
destructuring binds `practicaRows` to the *first row object* (or
`undefined` when no row matched), and `practicaRows[0]` is likewise
modelled as a property read on that value. -/
def processRow (s : ExecSt) (row : Obj) : Except JsErr Unit × ExecSt :=
  let cargoContactoData : Obj := [("nombre", fldv row "CARGO DEL CONTACTO")]
  match getOrCreateE s "p_cargo_contacto" cargoContactoData "nombre" with
  | (.error e, s) => (.error e, s)
  | (.ok (cargoContacto, _), s) =>
  let contactoData : Obj :=
    [("nombre", fldv row "CONTACTO"),
     ("telefono", fldv row "TELEFONO CONTACTO"),
     ("celular", fldv row "CELULAR CONTACTO"),
     ("email", fldv row "E MAIL CONTACTO"),
     ("id_cargo_contacto", fldv cargoContacto "id_cargo_contacto")]
  match getOrCreateE s "p_contacto" contactoData "email" with
  | (.error e, s) => (.error e, s)
  | (.ok (contacto, _), s) =>
  let empresaData : Obj :=
    [("nit", fldv row "NIT"),
     ("razon_social", fldv row "EMPRESA DONDE REALIZA LA PRÁCTICA"),
     ("direccion", fldv row "DIRECCION CONTACTO"),
     ("id_jefe_inmediato", fldv contacto "id_contacto")]
  match getOrCreateE s "p_empresa" empresaData "nit" with
  | (.error e, s) => (.error e, s)
  | (.ok (empresa, _), s) =>
  let programaData : Obj := [("nombre", fldv row "PROGRAMA")]
  match getOrCreateE s "p_programa" programaData "nombre" with
  | (.error e, s) => (.error e, s)
  | (.ok (programa, _), s) =>
  let estudianteData : Obj :=
    [("nombres", fldv row "APELLIDOS Y NOMBRES"),
     ("edad", fldv row "EDAD"),
     ("celular", fldv row "CELULAR"),
     ("direccion", fldv row "DIRECCION RESIDENCIA"),
     ("telefono", fldv row "TELÉFONO RESIDENCIA"),
     ("email", fldv row "CORREO JEFE INMEDIATO"),
     ("id_contacto", fldv contacto "id_contacto")]
  match getOrCreateE s "p_estudiante" estudianteData "email" with
  | (.error e, s) => (.error e, s)
  | (.ok (estudiante, _), s) =>
  let practicaData : Obj :=
    [("id_programa", fldv programa "id_programa"),
     ("id_estudiante", fldv estudiante "id_estudiante"),
     ("id_empresa", fldv empresa "id_empresa"),
     ("fec_inicio", excelDate (fldv row "FECHA INICIO")),
     ("fec_termina", excelDate (fldv row "FECHA TERMINACIÓN")),
     ("dias_pract", fldv row "TOTAL DIAS EN PRACTICA")]
  match issueSelect3 s "p_practica"
      "id_estudiante" (fldv estudiante "id_estudiante")
      "id_empresa" (fldv empresa "id_empresa")
      "id_programa" (fldv programa "id_programa") with
  | (.error e, s) => (.error e, s)
  | (.ok rows, s) =>
    match rows.head? with
    | none => (.error .typeError, s)
    | some practicaRows =>
      if jsGTzero (fldv practicaRows "length") then
        match issueUpdate s "p_practica" practicaData
            "id_practica" (fldv practicaRows "id_practica") with
        | (.error e, s) => (.error e, s)
        | (.ok _, s) => (.ok (), s)
      else
        match issueInsert s "p_practica" practicaData with
        | (.error e, s) => (.error e, s)
        | (.ok _, s) => (.ok (), s)

/-- The `for` loop over the parsed spreadsheet rows: stops at the first
row whose processing throws. -/
def processRows (s : ExecSt) : List Obj → Except JsErr Unit × ExecSt
  | [] => (.ok (), s)
  | row :: rest =>
    match processRow s row with
    | (.ok _, s1) => processRows s1 rest
    | (.error e, s1) => (.error e, s1)

/-- `router.post('/upload')` from the `try` block on (lines 86–151): `BEGIN`,
the row loop, then `COMMIT` and a 200 message on success; in `catch`,
`ROLLBACK` and a 500 generic error body; `connection.release()` in
`finally` on both paths. -/
def uploadHandler (s : ExecSt) (rows : List Obj) : Resp × ExecSt :=
  let sb := issueBegin s
  match processRows sb rows with
  | (.ok _, s1) =>
    let s2 := issueCommit s1
    (⟨200, .msg "Archivo procesado e insertado en la base de datos correctamente."⟩, rel s2)
  | (.error _, s1) =>
    let s2 := issueRollback s1
    (⟨500, .errMsg "Error al insertar en la base de datos."⟩, rel s2)

/-! ## Statement-count helpers over the event log -/

def isInsertTo (t : String) : Ev → Bool
  | .stmt (.insert tb _) => tb == t
  | _ => false

def isUpdateTo (t : String) : Ev → Bool
  | .stmt (.update tb _ _ _) => tb == t
  | _ => false

def countInsertsTo (t : String) (l : List Ev) : Nat := l.countP (isInsertTo t)

def countUpdatesTo (t : String) (l : List Ev) : Nat := l.countP (isUpdateTo t)

/-! ## C3: the postgres `format` does not substitute parameter values -/

/-- C3: the claim that `format` substitutes the literal value of the K-th
parameter for the K-th marker fails on the postgres backend: the replacer
`(_, i) => $ + params[i-1]` receives the match *offset* as `i`, so for the
Get-Or-Create select the single marker (at offset 40) is replaced by
`$undefined` (`params[39]` does not exist) instead of the first parameter's
value, and the `INSERT INTO t SET ?` shorthand is likewise rendered as
`$undefined` rather than an expanded column/value list of the record. -/
theorem pg_format_substitutes_offset_not_param :
    pgFormat "SELECT * FROM p_programa WHERE nombre = ?"
        (.plist [.vstr "Ingenieria"])
      = "SELECT * FROM p_programa WHERE nombre = $undefined" ∧
    pgFormat "INSERT INTO p_programa SET ?"
        (.pobj [("nombre", .vstr "Ingenieria")])
      = "INSERT INTO p_programa SET $undefined" := ⟨rfl, rfl⟩

/-! ## C2: the POST handler re-unwraps the normalized result and 500s -/

/-- C2: evaluation of the POST `/practica` handler at a *successful* insert
on each backend.  The adapter has already normalized the result (okPacket
for mysql, flat row array for postgres), but the handler re-unwraps it with
`const [result] = …`: on mysql the okPacket is not iterable (TypeError), on
postgres the empty row array destructures to `undefined` and
`result.insertId` throws — so the response is the 500 error body, never the
documented 201 echo. -/
theorem post_practica_500_despite_successful_insert :
    postPracticaHandler [("clasificaciones", .vstr "A"), ("no_folio", .vstr "F1")]
        (.mysqlRes (.okPacket 7))
      = ⟨500, .errMsg "Error al crear la práctica."⟩ ∧
    postPracticaHandler [("clasificaciones", .vstr "A"), ("no_folio", .vstr "F1")]
        (.pgRes [])
      = ⟨500, .errMsg "Error al crear la práctica."⟩ := ⟨rfl, rfl⟩

/-! ## C10: PUT and DELETE answer 200 without an existence check -/

/-- C10: for a key matching no stored row, the PUT and DELETE handlers
still respond 200 with their success message bodies: neither inspects the
match count of its statement, so an update or delete of zero rows is
indistinguishable from a successful one at the HTTP interface. -/
theorem put_delete_200_for_absent_key (s : ExecSt) (id : JSVal) (body : Obj)
    (tb : Table) (hf : s.failAt = none)
    (ht : DB.tab s.db "practica" = some tb)
    (habs : ∀ r ∈ tb.rows, sqlEq (fldv r "id") id = false) :
    (putPracticaHandler s id body).1
      = ⟨200, .msg "Práctica actualizada correctamente."⟩ ∧
    (deletePracticaHandler s id).1
      = ⟨200, .msg "Práctica eliminada correctamente."⟩ := by
  refine ⟨?_, ?_⟩ <;>
    simp [putPracticaHandler, deletePracticaHandler, issueUpdate, issueDelete,
      injected, hf, dbUpdate, dbDelete, ht]

theorem put_delete_200_for_absent_key_witness :
    (putPracticaHandler ⟨[("practica", ⟨"id", 2, [[("id", .vnum 1)]]⟩)], [], 0, none, none⟩
        (.vnum 9) []).1
      = ⟨200, .msg "Práctica actualizada correctamente."⟩ ∧
    (deletePracticaHandler ⟨[("practica", ⟨"id", 2, [[("id", .vnum 1)]]⟩)], [], 0, none, none⟩
        (.vnum 9)).1
      = ⟨200, .msg "Práctica eliminada correctamente."⟩ :=
  put_delete_200_for_absent_key _ (.vnum 9) [] ⟨"id", 2, [[("id", .vnum 1)]]⟩
    rfl rfl (by decide)

/-! ## C1: the bulk import's internship upsert is broken by a re-unwrap

Concrete database and spreadsheet row exercising `processRow`: every
entity resolves through the found path of Get-Or-Create, and `p_practica`
already holds a row for the (student 1, company 2, program 3) triple.
-/

def bugPracticaRow : Obj :=
  [("id_practica", .vnum 4), ("id_estudiante", .vnum 1),
   ("id_empresa", .vnum 2), ("id_programa", .vnum 3)]

def bugDB : DB :=
  [("p_cargo_contacto", ⟨"id_cargo_contacto", 10,
      [[("id_cargo_contacto", .vnum 1), ("nombre", .vstr "Gerente")]]⟩),
   ("p_contacto", ⟨"id_contacto", 10,
      [[("id_contacto", .vnum 1), ("nombre", .vstr "Ana"),
        ("telefono", .vstr "1"), ("celular", .vstr "2"),
        ("email", .vstr "ana@x.co"), ("id_cargo_contacto", .vnum 1)]]⟩),
   ("p_empresa", ⟨"id_empresa", 10,
      [[("id_empresa", .vnum 2), ("nit", .vnum 900),
        ("razon_social", .vstr "Acme"), ("direccion", .vstr "Calle 1"),
        ("id_jefe_inmediato", .vnum 1)]]⟩),
   ("p_programa", ⟨"id_programa", 10,
      [[("id_programa", .vnum 3), ("nombre", .vstr "Sistemas")]]⟩),
   ("p_estudiante", ⟨"id_estudiante", 10,
      [[("id_estudiante", .vnum 1), ("nombres", .vstr "Perez Juan"),
        ("email", .vstr "jefe@x.co"), ("id_contacto", .vnum 1)]]⟩),
   ("p_practica", ⟨"id_practica", 5, [bugPracticaRow]⟩)]

/-- The same database with no internship rows yet. -/
def bugDBFresh : DB :=
  bugDB.map (fun p =>
    if p.1 = "p_practica" then (p.1, ⟨"id_practica", 5, []⟩) else p)

def bugRow : Obj :=
  [("CARGO DEL CONTACTO", .vstr "Gerente"), ("CONTACTO", .vstr "Ana"),
   ("TELEFONO CONTACTO", .vstr "1"), ("CELULAR CONTACTO", .vstr "2"),
   ("E MAIL CONTACTO", .vstr "ana@x.co"), ("NIT", .vnum 900),
   ("EMPRESA DONDE REALIZA LA PRÁCTICA", .vstr "Acme"),
   ("DIRECCION CONTACTO", .vstr "Calle 1"), ("PROGRAMA", .vstr "Sistemas"),
   ("APELLIDOS Y NOMBRES", .vstr "Perez Juan"), ("EDAD", .vnum 20),
   ("CELULAR", .vstr "3"), ("DIRECCION RESIDENCIA", .vstr "Calle 2"),
   ("TELÉFONO RESIDENCIA", .vstr "4"),
   ("CORREO JEFE INMEDIATO", .vstr "jefe@x.co"),
   ("FECHA INICIO", .vnum 45000), ("FECHA TERMINACIÓN", .vnum 45100),
   ("TOTAL DIAS EN PRACTICA", .vnum 100)]

def bugSt : ExecSt := ⟨bugDB, [], 0, none, none⟩

def bugStFresh : ExecSt := ⟨bugDBFresh, [], 0, none, none⟩

/-- C1 (counterexample evaluation): processing an import row whose
(student, company, program) triple *already has* an internship row issues
an INSERT and no UPDATE — `const [practicaRows] = …` re-destructures the
already-normalized row array, so `practicaRows` is the first row object,
whose `length` property is `undefined`, and `undefined > 0` is false — and
leaves two `p_practica` rows for the triple; while for a *fresh* triple the
destructuring yields `undefined` and `practicaRows.length` throws a
TypeError, failing the whole import. -/
theorem upload_practica_duplicate_and_crash :
    (processRow bugSt bugRow).1 = .ok () ∧
    ((dbSelect3 (processRow bugSt bugRow).2.db "p_practica"
        "id_estudiante" (.vnum 1) "id_empresa" (.vnum 2)
        "id_programa" (.vnum 3)).getD []).length = 2 ∧
    countInsertsTo "p_practica" (processRow bugSt bugRow).2.log = 1 ∧
    countUpdatesTo "p_practica" (processRow bugSt bugRow).2.log = 0 ∧
    (processRow bugStFresh bugRow).1 = .error .typeError :=
  ⟨rfl, rfl, rfl, rfl, rfl⟩

/-! ## Reduction lemmas for the no-fault runs of Get-Or-Create -/

theorem tab_setTab_self (db : DB) (t : String) (tb old : Table)
    (h : DB.tab db t = some old) : DB.tab (DB.setTab db t tb) t = some tb := by
  induction db with
  | nil => simp [DB.tab] at h
  | cons p ps ih =>
    by_cases hp : p.1 = t
    · simp [DB.tab, DB.setTab, hp]
    · have h' : DB.tab ps t = some old := by simpa [DB.tab, hp] using h
      simp [DB.tab, DB.setTab, hp, ih h']

theorem issueSelect_ok (s : ExecSt) (t f : String) (v : JSVal) (rs : List Obj)
    (hf : s.failAt = none) (h : dbSelect s.db t f v = some rs) :
    issueSelect s t f v = (.ok rs, note s (.select t f v)) := by
  simp [issueSelect, injected, hf, h]

theorem issueInsert_ok (s : ExecSt) (t : String) (o : Obj) (db1 : DB) (iid : Nat)
    (hf : s.failAt = none) (h : dbInsert s.db t o = some (db1, iid)) :
    issueInsert s t o = (.ok iid, { note s (.insert t o) with db := db1 }) := by
  simp [issueInsert, injected, hf, h]

theorem dbInsert_eq (db : DB) (t : String) (o : Obj) (tb : Table)
    (htab : DB.tab db t = some tb) :
    dbInsert db t o = some (DB.setTab db t { tb with
        nextId := tb.nextId + 1,
        rows := tb.rows ++ [setField o tb.pk (.vnum tb.nextId)] }, tb.nextId) := by
  unfold dbInsert
  rw [htab]
  rfl

theorem dbSelect_after_insert (db : DB) (t : String) (o : Obj) (db1 : DB)
    (iid : Nat) (f : String) (v : JSVal)
    (h : dbInsert db t o = some (db1, iid)) :
    ∃ ls, dbSelect db1 t f v = some ls := by
  cases htab : DB.tab db t with
  | none => unfold dbInsert at h; rw [htab] at h; simp at h
  | some tb =>
    rw [dbInsert_eq db t o tb htab] at h
    injection h with h2
    injection h2 with h3 h4
    subst h3
    unfold dbSelect
    rw [tab_setTab_self db t _ tb htab]
    exact ⟨_, rfl⟩

/-! ## C5: the found path of Get-Or-Create -/

/-- C5: when the initial select matches at least one stored row,
`getOrCreate` returns the first row of that select unchanged and its only
issued statement is that select (state otherwise untouched, in particular
no insert); consequently a second call with the same arguments returns the
same stored row, again issuing only a select, and across both calls the
number of issued inserts stays what it was. -/
theorem getOrCreate_found_idempotent (s : ExecSt) (table : String) (data : Obj)
    (uniqueField : String) (r : Obj) (rs : List Obj)
    (hf : s.failAt = none)
    (hsel : dbSelect s.db table uniqueField (fldv data uniqueField) = some (r :: rs)) :
    getOrCreateE s table data uniqueField
      = (.ok (r, data), note s (.select table uniqueField (fldv data uniqueField))) ∧
    getOrCreateE (note s (.select table uniqueField (fldv data uniqueField)))
        table data uniqueField
      = (.ok (r, data),
         note (note s (.select table uniqueField (fldv data uniqueField)))
           (.select table uniqueField (fldv data uniqueField))) ∧
    countInsertsTo table
        (note (note s (.select table uniqueField (fldv data uniqueField)))
          (.select table uniqueField (fldv data uniqueField))).log
      = countInsertsTo table s.log := by
  have h1 := issueSelect_ok s table uniqueField (fldv data uniqueField) (r :: rs) hf hsel
  have h2 := issueSelect_ok (note s (.select table uniqueField (fldv data uniqueField)))
    table uniqueField (fldv data uniqueField) (r :: rs) hf hsel
  refine ⟨?_, ?_, ?_⟩
  · unfold getOrCreateE
    rw [h1]
  · unfold getOrCreateE
    rw [h2]
  · simp [note, countInsertsTo, List.countP_append, isInsertTo]

theorem getOrCreate_found_idempotent_witness :
    getOrCreateE ⟨[("t", ⟨"id", 2, [[("id", .vnum 1), ("email", .vstr "a@b.c")]]⟩)],
        [], 0, none, none⟩ "t" [("email", .vstr "a@b.c"), ("x", .vnum 5)] "email"
      = (.ok ([("id", .vnum 1), ("email", .vstr "a@b.c")],
              [("email", .vstr "a@b.c"), ("x", .vnum 5)]),
         note ⟨[("t", ⟨"id", 2, [[("id", .vnum 1), ("email", .vstr "a@b.c")]]⟩)],
            [], 0, none, none⟩
           (.select "t" "email" (fldv [("email", .vstr "a@b.c"), ("x", .vnum 5)] "email"))) :=
  (getOrCreate_found_idempotent
    ⟨[("t", ⟨"id", 2, [[("id", .vnum 1), ("email", .vstr "a@b.c")]]⟩)], [], 0, none, none⟩
    "t" [("email", .vstr "a@b.c"), ("x", .vnum 5)] "email"
    [("id", .vnum 1), ("email", .vstr "a@b.c")] [] rfl rfl).1

/-! ## C6: the insert path of Get-Or-Create -/

/-- C6: when the initial select matches nothing, `getOrCreate` issues
exactly one insert (its state ends on the inserted database), and the
returned Record is the spread-merge of the candidate record (now carrying
the backend-assigned identifier in its `id` field) with the first row of
the re-select — stored fields taking precedence on every key, the
candidate's remaining fields surviving — or the candidate record itself
when the re-select finds nothing. -/
theorem getOrCreate_insert_returns_merged (s : ExecSt) (table : String)
    (data : Obj) (uniqueField : String) (db1 : DB) (iid : Nat) (data1 : Obj)
    (hf : s.failAt = none)
    (hsel : dbSelect s.db table uniqueField (fldv data uniqueField) = some [])
    (hins : dbInsert s.db table data = some (db1, iid))
    (hd1 : data1 = setField data "id" (insertIdVal iid)) :
    countInsertsTo table (getOrCreateE s table data uniqueField).2.log
      = countInsertsTo table s.log + 1 ∧
    (getOrCreateE s table data uniqueField).2.db = db1 ∧
    ((∃ r2 rs2,
        dbSelect db1 table uniqueField (fldv data1 uniqueField) = some (r2 :: rs2) ∧
        (getOrCreateE s table data uniqueField).1 = .ok (spread data1 r2, data1) ∧
        ∀ k, getField (spread data1 r2) k
            = (getField r2 k).orElse (fun _ => getField data1 k)) ∨
     (dbSelect db1 table uniqueField (fldv data1 uniqueField) = some [] ∧
      (getOrCreateE s table data uniqueField).1 = .ok (data1, data1))) := by
  subst hd1
  obtain ⟨ls, hsel2⟩ := dbSelect_after_insert s.db table data db1 iid uniqueField
    (fldv (setField data "id" (insertIdVal iid)) uniqueField) hins
  have h1 := issueSelect_ok s table uniqueField (fldv data uniqueField) [] hf hsel
  have h2 := issueInsert_ok (note s (.select table uniqueField (fldv data uniqueField)))
    table data db1 iid hf hins
  have h3 := issueSelect_ok
    { note (note s (.select table uniqueField (fldv data uniqueField)))
        (.insert table data) with db := db1 }
    table uniqueField (fldv (setField data "id" (insertIdVal iid)) uniqueField) ls hf hsel2
  cases ls with
  | nil =>
    refine ⟨?_, ?_, Or.inr ⟨hsel2, ?_⟩⟩
    · simp only [getOrCreateE, h1, h2, h3]
      simp [note, countInsertsTo, List.countP_append, isInsertTo]
    · simp only [getOrCreateE, h1, h2, h3]
      rfl
    · simp only [getOrCreateE, h1, h2, h3]
  | cons r2 rs2 =>
    refine ⟨?_, ?_, Or.inl ⟨r2, rs2, hsel2, ?_,
      fun k => getField_spread (setField data "id" (insertIdVal iid)) r2 k⟩⟩
    · simp only [getOrCreateE, h1, h2, h3]
      simp [note, countInsertsTo, List.countP_append, isInsertTo]
    · simp only [getOrCreateE, h1, h2, h3]
      rfl
    · simp only [getOrCreateE, h1, h2, h3]

theorem getOrCreate_insert_returns_merged_witness :
    countInsertsTo "t" (getOrCreateE ⟨[("t", ⟨"idcol", 1, []⟩)], [], 0, none, none⟩
        "t" [("email", .vstr "a@b.c")] "email").2.log
      = countInsertsTo "t" (ExecSt.log ⟨[("t", ⟨"idcol", 1, []⟩)], [], 0, none, none⟩) + 1 ∧
    (getOrCreateE ⟨[("t", ⟨"idcol", 1, []⟩)], [], 0, none, none⟩
        "t" [("email", .vstr "a@b.c")] "email").2.db
      = [("t", ⟨"idcol", 2, [[("email", .vstr "a@b.c"), ("idcol", .vnum 1)]]⟩)] ∧
    ((∃ r2 rs2,
        dbSelect [("t", ⟨"idcol", 2, [[("email", .vstr "a@b.c"), ("idcol", .vnum 1)]]⟩)]
            "t" "email"
            (fldv (setField [("email", .vstr "a@b.c")] "id" (insertIdVal 1)) "email")
          = some (r2 :: rs2) ∧
        (getOrCreateE ⟨[("t", ⟨"idcol", 1, []⟩)], [], 0, none, none⟩
            "t" [("email", .vstr "a@b.c")] "email").1
          = .ok (spread (setField [("email", .vstr "a@b.c")] "id" (insertIdVal 1)) r2,
                 setField [("email", .vstr "a@b.c")] "id" (insertIdVal 1)) ∧
        ∀ k, getField (spread (setField [("email", .vstr "a@b.c")] "id" (insertIdVal 1)) r2) k
            = (getField r2 k).orElse
                (fun _ => getField (setField [("email", .vstr "a@b.c")] "id" (insertIdVal 1)) k)) ∨
     (dbSelect [("t", ⟨"idcol", 2, [[("email", .vstr "a@b.c"), ("idcol", .vnum 1)]]⟩)]
          "t" "email"
          (fldv (setField [("email", .vstr "a@b.c")] "id" (insertIdVal 1)) "email")
        = some [] ∧
      (getOrCreateE ⟨[("t", ⟨"idcol", 1, []⟩)], [], 0, none, none⟩
          "t" [("email", .vstr "a@b.c")] "email").1
        = .ok (setField [("email", .vstr "a@b.c")] "id" (insertIdVal 1),
               setField [("email", .vstr "a@b.c")] "id" (insertIdVal 1)))) :=
  getOrCreate_insert_returns_merged
    ⟨[("t", ⟨"idcol", 1, []⟩)], [], 0, none, none⟩ "t" [("email", .vstr "a@b.c")] "email"
    [("t", ⟨"idcol", 2, [[("email", .vstr "a@b.c"), ("idcol", .vnum 1)]]⟩)] 1
    (setField [("email", .vstr "a@b.c")] "id" (insertIdVal 1)) rfl rfl rfl rfl

/-! ## C9: Get-Or-Create mutates the caller's record on the insert path -/

/-- Project the caller's record object out of a successful call. -/
def callerRecOf : Except JsErr (Obj × Obj) → Option Obj
  | .ok (_, d) => some d
  | .error _ => none

/-- C9: on the found path the caller's candidate record comes back
unchanged, while on the insert path the call has mutated it in place —
`data.id = result.insertId || …` runs before the re-select — so after the
call the caller's own record carries the backend-assigned identifier in a
(possibly new) `id` field. -/
theorem getOrCreate_mutates_caller_record (s : ExecSt) (table : String)
    (data : Obj) (uniqueField : String) (hf : s.failAt = none) :
    (∀ r rs, dbSelect s.db table uniqueField (fldv data uniqueField) = some (r :: rs) →
        callerRecOf (getOrCreateE s table data uniqueField).1 = some data) ∧
    (∀ db1 iid, dbSelect s.db table uniqueField (fldv data uniqueField) = some [] →
        dbInsert s.db table data = some (db1, iid) →
        callerRecOf (getOrCreateE s table data uniqueField).1
          = some (setField data "id" (insertIdVal iid))) := by
  constructor
  · intro r rs hsel
    have h1 := issueSelect_ok s table uniqueField (fldv data uniqueField) (r :: rs) hf hsel
    simp only [getOrCreateE, h1]
    rfl
  · intro db1 iid hsel hins
    obtain ⟨ls, hsel2⟩ := dbSelect_after_insert s.db table data db1 iid uniqueField
      (fldv (setField data "id" (insertIdVal iid)) uniqueField) hins
    have h1 := issueSelect_ok s table uniqueField (fldv data uniqueField) [] hf hsel
    have h2 := issueInsert_ok (note s (.select table uniqueField (fldv data uniqueField)))
      table data db1 iid hf hins
    have h3 := issueSelect_ok
      { note (note s (.select table uniqueField (fldv data uniqueField)))
          (.insert table data) with db := db1 }
      table uniqueField (fldv (setField data "id" (insertIdVal iid)) uniqueField) ls hf hsel2
    cases ls with
    | nil =>
      simp only [getOrCreateE, h1, h2, h3]
      rfl
    | cons r2 rs2 =>
      simp only [getOrCreateE, h1, h2, h3]
      rfl

theorem getOrCreate_mutates_caller_record_witness :
    callerRecOf (getOrCreateE
        ⟨[("t", ⟨"idcol", 2, [[("idcol", .vnum 1), ("email", .vstr "a@b.c")]]⟩)],
          [], 0, none, none⟩ "t" [("email", .vstr "a@b.c")] "email").1
      = some [("email", .vstr "a@b.c")] ∧
    callerRecOf (getOrCreateE ⟨[("t", ⟨"idcol", 1, []⟩)], [], 0, none, none⟩
        "t" [("email", .vstr "a@b.c")] "email").1
      = some (setField [("email", .vstr "a@b.c")] "id" (insertIdVal 1)) :=
  ⟨(getOrCreate_mutates_caller_record
      ⟨[("t", ⟨"idcol", 2, [[("idcol", .vnum 1), ("email", .vstr "a@b.c")]]⟩)],
        [], 0, none, none⟩ "t" [("email", .vstr "a@b.c")] "email" rfl).1
      [("idcol", .vnum 1), ("email", .vstr "a@b.c")] [] rfl,
   (getOrCreate_mutates_caller_record ⟨[("t", ⟨"idcol", 1, []⟩)], [], 0, none, none⟩
      "t" [("email", .vstr "a@b.c")] "email" rfl).2
      [("t", ⟨"idcol", 2, [[("email", .vstr "a@b.c"), ("idcol", .vnum 1)]]⟩)] 1 rfl rfl⟩

/-! ## Frame lemmas: row processing neither releases nor touches
transaction markers or the snapshot -/

/-- Events that are neither transaction markers nor a release. -/
def Ev.plain : Ev → Bool
  | .stmt .txBegin => false
  | .stmt .txCommit => false
  | .stmt .txRollback => false
  | .release => false
  | .stmt _ => true

/-- `s'` extends `s` by plain events only, leaving the transaction
snapshot untouched. -/
def StepOK (s s' : ExecSt) : Prop :=
  (∃ Δ, s'.log = s.log ++ Δ ∧ ∀ e ∈ Δ, Ev.plain e = true) ∧
  s'.txSnap = s.txSnap

theorem StepOK.rfl (s : ExecSt) : StepOK s s :=
  ⟨⟨[], by simp, by simp⟩, Eq.refl _⟩

theorem StepOK.trans {a b c : ExecSt} (h1 : StepOK a b) (h2 : StepOK b c) :
    StepOK a c := by
  obtain ⟨⟨d1, hl1, hp1⟩, ht1⟩ := h1
  obtain ⟨⟨d2, hl2, hp2⟩, ht2⟩ := h2
  refine ⟨⟨d1 ++ d2, ?_, ?_⟩, ht2.trans ht1⟩
  · rw [hl2, hl1, List.append_assoc]
  · intro e he
    rcases List.mem_append.mp he with h | h
    · exact hp1 e h
    · exact hp2 e h

theorem stepOK_note (s : ExecSt) (st : Stmt) (h : Ev.plain (Ev.stmt st) = true) :
    StepOK s (note s st) := by
  refine ⟨⟨[Ev.stmt st], Eq.refl _, ?_⟩, Eq.refl _⟩
  intro e he
  rw [List.mem_singleton.mp he]
  exact h

theorem stepOK_db (s s' : ExecSt) (db' : DB) (h : StepOK s s') :
    StepOK s { s' with db := db' } := h

theorem issueSelect_stepOK (s : ExecSt) (t f : String) (v : JSVal) :
    StepOK s (issueSelect s t f v).2 := by
  unfold issueSelect
  dsimp only
  split
  · exact stepOK_note s _ (Eq.refl _)
  · split
    · exact stepOK_note s _ (Eq.refl _)
    · exact stepOK_note s _ (Eq.refl _)

theorem issueSelectAll_stepOK (s : ExecSt) (t : String) :
    StepOK s (issueSelectAll s t).2 := by
  unfold issueSelectAll
  dsimp only
  split
  · exact stepOK_note s _ (Eq.refl _)
  · split
    · exact stepOK_note s _ (Eq.refl _)
    · exact stepOK_note s _ (Eq.refl _)

theorem issueSelect3_stepOK (s : ExecSt) (t f1 : String) (v1 : JSVal)
    (f2 : String) (v2 : JSVal) (f3 : String) (v3 : JSVal) :
    StepOK s (issueSelect3 s t f1 v1 f2 v2 f3 v3).2 := by
  unfold issueSelect3
  dsimp only
  split
  · exact stepOK_note s _ (Eq.refl _)
  · split
    · exact stepOK_note s _ (Eq.refl _)
    · exact stepOK_note s _ (Eq.refl _)

theorem issueInsert_stepOK (s : ExecSt) (t : String) (o : Obj) :
    StepOK s (issueInsert s t o).2 := by
  unfold issueInsert
  dsimp only
  split
  · exact stepOK_note s _ (Eq.refl _)
  · split
    · exact stepOK_note s _ (Eq.refl _)
    · exact stepOK_db s _ _ (stepOK_note s _ (Eq.refl _))

theorem issueUpdate_stepOK (s : ExecSt) (t : String) (o : Obj) (f : String)
    (v : JSVal) : StepOK s (issueUpdate s t o f v).2 := by
  unfold issueUpdate
  dsimp only
  split
  · exact stepOK_note s _ (Eq.refl _)
  · split
    · exact stepOK_note s _ (Eq.refl _)
    · exact stepOK_db s _ _ (stepOK_note s _ (Eq.refl _))

theorem issueDelete_stepOK (s : ExecSt) (t f : String) (v : JSVal) :
    StepOK s (issueDelete s t f v).2 := by
  unfold issueDelete
  dsimp only
  split
  · exact stepOK_note s _ (Eq.refl _)
  · split
    · exact stepOK_note s _ (Eq.refl _)
    · exact stepOK_db s _ _ (stepOK_note s _ (Eq.refl _))

theorem getOrCreateE_stepOK (s : ExecSt) (table : String) (data : Obj)
    (uf : String) : StepOK s (getOrCreateE s table data uf).2 := by
  unfold getOrCreateE
  obtain ⟨r1, s1, h1⟩ : ∃ r s', issueSelect s table uf (fldv data uf) = (r, s') :=
    ⟨_, _, Eq.refl _⟩
  rw [h1]
  have hs1 : StepOK s s1 := by
    have t := issueSelect_stepOK s table uf (fldv data uf)
    rw [h1] at t
    exact t
  cases r1 with
  | error e => exact hs1
  | ok rows =>
    cases rows with
    | cons r rest => exact hs1
    | nil =>
      dsimp only
      obtain ⟨r2, s2, h2⟩ : ∃ r s', issueInsert s1 table data = (r, s') :=
        ⟨_, _, Eq.refl _⟩
      rw [h2]
      have hs2 : StepOK s1 s2 := by
        have t := issueInsert_stepOK s1 table data
        rw [h2] at t
        exact t
      cases r2 with
      | error e => exact hs1.trans hs2
      | ok iid =>
        dsimp only
        obtain ⟨r3, s3, h3⟩ : ∃ r s',
            issueSelect s2 table uf
              (fldv (setField data "id" (insertIdVal iid)) uf) = (r, s') :=
          ⟨_, _, Eq.refl _⟩
        rw [h3]
        have hs3 : StepOK s2 s3 := by
          have t := issueSelect_stepOK s2 table uf
            (fldv (setField data "id" (insertIdVal iid)) uf)
          rw [h3] at t
          exact t
        cases r3 with
        | error e => exact (hs1.trans hs2).trans hs3
        | ok rows2 =>
          cases rows2 with
          | cons r2' rest2 => exact (hs1.trans hs2).trans hs3
          | nil => exact (hs1.trans hs2).trans hs3

theorem processRow_stepOK (s : ExecSt) (row : Obj) :
    StepOK s (processRow s row).2 := by
  unfold processRow
  dsimp only
  obtain ⟨r1, s1, h1⟩ : ∃ r s',
      getOrCreateE s "p_cargo_contacto"
        [("nombre", fldv row "CARGO DEL CONTACTO")] "nombre" = (r, s') :=
    ⟨_, _, Eq.refl _⟩
  rw [h1]
  have hs1 : StepOK s s1 := by
    have t := getOrCreateE_stepOK s "p_cargo_contacto"
      [("nombre", fldv row "CARGO DEL CONTACTO")] "nombre"
    rw [h1] at t
    exact t
  cases r1 with
  | error e => exact hs1
  | ok pr1 =>
    obtain ⟨cargoContacto, u1⟩ := pr1
    dsimp only
    obtain ⟨r2, s2, h2⟩ : ∃ r s',
        getOrCreateE s1 "p_contacto"
          [("nombre", fldv row "CONTACTO"),
           ("telefono", fldv row "TELEFONO CONTACTO"),
           ("celular", fldv row "CELULAR CONTACTO"),
           ("email", fldv row "E MAIL CONTACTO"),
           ("id_cargo_contacto", fldv cargoContacto "id_cargo_contacto")]
          "email" = (r, s') :=
      ⟨_, _, Eq.refl _⟩
    rw [h2]
    have hs2 : StepOK s1 s2 := by
      have t := getOrCreateE_stepOK s1 "p_contacto"
        [("nombre", fldv row "CONTACTO"),
         ("telefono", fldv row "TELEFONO CONTACTO"),
         ("celular", fldv row "CELULAR CONTACTO"),
         ("email", fldv row "E MAIL CONTACTO"),
         ("id_cargo_contacto", fldv cargoContacto "id_cargo_contacto")] "email"
      rw [h2] at t
      exact t
    cases r2 with
    | error e => exact hs1.trans hs2
    | ok pr2 =>
      obtain ⟨contacto, u2⟩ := pr2
      dsimp only
      obtain ⟨r3, s3, h3⟩ : ∃ r s',
          getOrCreateE s2 "p_empresa"
            [("nit", fldv row "NIT"),
             ("razon_social", fldv row "EMPRESA DONDE REALIZA LA PRÁCTICA"),
             ("direccion", fldv row "DIRECCION CONTACTO"),
             ("id_jefe_inmediato", fldv contacto "id_contacto")]
            "nit" = (r, s') :=
        ⟨_, _, Eq.refl _⟩
      rw [h3]
      have hs3 : StepOK s2 s3 := by
        have t := getOrCreateE_stepOK s2 "p_empresa"
          [("nit", fldv row "NIT"),
           ("razon_social", fldv row "EMPRESA DONDE REALIZA LA PRÁCTICA"),
           ("direccion", fldv row "DIRECCION CONTACTO"),
           ("id_jefe_inmediato", fldv contacto "id_contacto")] "nit"
        rw [h3] at t
        exact t
      cases r3 with
      | error e => exact (hs1.trans hs2).trans hs3
      | ok pr3 =>
        obtain ⟨empresa, u3⟩ := pr3
        dsimp only
        obtain ⟨r4, s4, h4⟩ : ∃ r s',
            getOrCreateE s3 "p_programa"
              [("nombre", fldv row "PROGRAMA")] "nombre" = (r, s') :=
          ⟨_, _, Eq.refl _⟩
        rw [h4]
        have hs4 : StepOK s3 s4 := by
          have t := getOrCreateE_stepOK s3 "p_programa"
            [("nombre", fldv row "PROGRAMA")] "nombre"
          rw [h4] at t
          exact t
        cases r4 with
        | error e => exact ((hs1.trans hs2).trans hs3).trans hs4
        | ok pr4 =>
          obtain ⟨programa, u4⟩ := pr4
          dsimp only
          obtain ⟨r5, s5, h5⟩ : ∃ r s',
              getOrCreateE s4 "p_estudiante"
                [("nombres", fldv row "APELLIDOS Y NOMBRES"),
                 ("edad", fldv row "EDAD"),
                 ("celular", fldv row "CELULAR"),
                 ("direccion", fldv row "DIRECCION RESIDENCIA"),
                 ("telefono", fldv row "TELÉFONO RESIDENCIA"),
                 ("email", fldv row "CORREO JEFE INMEDIATO"),
                 ("id_contacto", fldv contacto "id_contacto")]
                "email" = (r, s') :=
            ⟨_, _, Eq.refl _⟩
          rw [h5]
          have hs5 : StepOK s4 s5 := by
            have t := getOrCreateE_stepOK s4 "p_estudiante"
              [("nombres", fldv row "APELLIDOS Y NOMBRES"),
               ("edad", fldv row "EDAD"),
               ("celular", fldv row "CELULAR"),
               ("direccion", fldv row "DIRECCION RESIDENCIA"),
               ("telefono", fldv row "TELÉFONO RESIDENCIA"),
               ("email", fldv row "CORREO JEFE INMEDIATO"),
               ("id_contacto", fldv contacto "id_contacto")] "email"
            rw [h5] at t
            exact t
          have acc5 : StepOK s s5 :=
            (((hs1.trans hs2).trans hs3).trans hs4).trans hs5
          cases r5 with
          | error e => exact acc5
          | ok pr5 =>
            obtain ⟨estudiante, u5⟩ := pr5
            dsimp only
            obtain ⟨r6, s6, h6⟩ : ∃ r s',
                issueSelect3 s5 "p_practica"
                  "id_estudiante" (fldv estudiante "id_estudiante")
                  "id_empresa" (fldv empresa "id_empresa")
                  "id_programa" (fldv programa "id_programa") = (r, s') :=
              ⟨_, _, Eq.refl _⟩
            rw [h6]
            have hs6 : StepOK s5 s6 := by
              have t := issueSelect3_stepOK s5 "p_practica"
                "id_estudiante" (fldv estudiante "id_estudiante")
                "id_empresa" (fldv empresa "id_empresa")
                "id_programa" (fldv programa "id_programa")
              rw [h6] at t
              exact t
            have acc6 : StepOK s s6 := acc5.trans hs6
            cases r6 with
            | error e => exact acc6
            | ok rows =>
              dsimp only
              cases rows.head? with
              | none => exact acc6
              | some practicaRows =>
                dsimp only
                split
                · obtain ⟨r7, s7, h7⟩ : ∃ r s',
                      issueUpdate s6 "p_practica"
                        [("id_programa", fldv programa "id_programa"),
                         ("id_estudiante", fldv estudiante "id_estudiante"),
                         ("id_empresa", fldv empresa "id_empresa"),
                         ("fec_inicio", excelDate (fldv row "FECHA INICIO")),
                         ("fec_termina", excelDate (fldv row "FECHA TERMINACIÓN")),
                         ("dias_pract", fldv row "TOTAL DIAS EN PRACTICA")]
                        "id_practica" (fldv practicaRows "id_practica") = (r, s') :=
                    ⟨_, _, Eq.refl _⟩
                  rw [h7]
                  have hs7 : StepOK s6 s7 := by
                    have t := issueUpdate_stepOK s6 "p_practica"
                      [("id_programa", fldv programa "id_programa"),
                       ("id_estudiante", fldv estudiante "id_estudiante"),
                       ("id_empresa", fldv empresa "id_empresa"),
                       ("fec_inicio", excelDate (fldv row "FECHA INICIO")),
                       ("fec_termina", excelDate (fldv row "FECHA TERMINACIÓN")),
                       ("dias_pract", fldv row "TOTAL DIAS EN PRACTICA")]
                      "id_practica" (fldv practicaRows "id_practica")
                    rw [h7] at t
                    exact t
                  cases r7 with
                  | error e => exact acc6.trans hs7
                  | ok u => exact acc6.trans hs7
                · obtain ⟨r7, s7, h7⟩ : ∃ r s',
                      issueInsert s6 "p_practica"
                        [("id_programa", fldv programa "id_programa"),
                         ("id_estudiante", fldv estudiante "id_estudiante"),
                         ("id_empresa", fldv empresa "id_empresa"),
                         ("fec_inicio", excelDate (fldv row "FECHA INICIO")),
                         ("fec_termina", excelDate (fldv row "FECHA TERMINACIÓN")),
                         ("dias_pract", fldv row "TOTAL DIAS EN PRACTICA")] = (r, s') :=
                    ⟨_, _, Eq.refl _⟩
                  rw [h7]
                  have hs7 : StepOK s6 s7 := by
                    have t := issueInsert_stepOK s6 "p_practica"
                      [("id_programa", fldv programa "id_programa"),
                       ("id_estudiante", fldv estudiante "id_estudiante"),
                       ("id_empresa", fldv empresa "id_empresa"),
                       ("fec_inicio", excelDate (fldv row "FECHA INICIO")),
                       ("fec_termina", excelDate (fldv row "FECHA TERMINACIÓN")),
                       ("dias_pract", fldv row "TOTAL DIAS EN PRACTICA")]
                    rw [h7] at t
                    exact t
                  cases r7 with
                  | error e => exact acc6.trans hs7
                  | ok u => exact acc6.trans hs7

theorem processRows_stepOK (rows : List Obj) :
    ∀ s : ExecSt, StepOK s (processRows s rows).2 := by
  induction rows with
  | nil => intro s; exact StepOK.rfl s
  | cons row rest ih =>
    intro s
    unfold processRows
    obtain ⟨r, s1, h⟩ : ∃ r s', processRow s row = (r, s') := ⟨_, _, Eq.refl _⟩
    rw [h]
    have hs1 : StepOK s s1 := by
      have t := processRow_stepOK s row
      rw [h] at t
      exact t
    cases r with
    | error e => exact hs1
    | ok u => exact hs1.trans (ih s1)

/-! ## C7: the bulk import is one transaction -/

/-- C7: the bulk import wraps the whole file in one transaction.  For every
starting state and row list, the handler's events are exactly: `BEGIN`
first (before any row statement), then only plain row statements, and —
when every row succeeded — `COMMIT` followed by the release together with
the 200 success message; or — on the first failure at any row — `ROLLBACK`
followed by the release (so the rollback precedes the release) together
with the 500 generic error body, and in that case the database equals the
pre-import database: no subset of the rows is persisted. -/
theorem upload_one_transaction (s : ExecSt) (rows : List Obj) :
    ∃ d, (∀ e ∈ d, Ev.plain e = true) ∧
      (((uploadHandler s rows).2.log
          = s.log ++ Ev.stmt .txBegin :: (d ++ [Ev.stmt .txCommit, Ev.release]) ∧
        (uploadHandler s rows).1
          = ⟨200, .msg "Archivo procesado e insertado en la base de datos correctamente."⟩) ∨
       ((uploadHandler s rows).2.log
          = s.log ++ Ev.stmt .txBegin :: (d ++ [Ev.stmt .txRollback, Ev.release]) ∧
        (uploadHandler s rows).1
          = ⟨500, .errMsg "Error al insertar en la base de datos."⟩ ∧
        (uploadHandler s rows).2.db = s.db)) := by
  obtain ⟨r, s1, h⟩ : ∃ r s', processRows (issueBegin s) rows = (r, s') :=
    ⟨_, _, Eq.refl _⟩
  have hs1 : StepOK (issueBegin s) s1 := by
    have t := processRows_stepOK rows (issueBegin s)
    rw [h] at t
    exact t
  obtain ⟨⟨d, hlog, hplain⟩, hsnap⟩ := hs1
  have hblog : (issueBegin s).log = s.log ++ [Ev.stmt .txBegin] := Eq.refl _
  have hbsnap : (issueBegin s).txSnap = some s.db := Eq.refl _
  refine ⟨d, hplain, ?_⟩
  cases r with
  | ok u =>
    have hu : uploadHandler s rows
        = (⟨200, .msg "Archivo procesado e insertado en la base de datos correctamente."⟩,
           rel (issueCommit s1)) := by
      simp only [uploadHandler]
      rw [h]
    left
    constructor
    · rw [hu]
      show (s1.log ++ [Ev.stmt .txCommit]) ++ [Ev.release]
        = s.log ++ Ev.stmt .txBegin :: (d ++ [Ev.stmt .txCommit, Ev.release])
      rw [hlog, hblog]
      simp [List.append_assoc]
    · rw [hu]
  | error e =>
    have hu : uploadHandler s rows
        = (⟨500, .errMsg "Error al insertar en la base de datos."⟩,
           rel (issueRollback s1)) := by
      simp only [uploadHandler]
      rw [h]
    right
    refine ⟨?_, ?_, ?_⟩
    · rw [hu]
      show (s1.log ++ [Ev.stmt .txRollback]) ++ [Ev.release]
        = s.log ++ Ev.stmt .txBegin :: (d ++ [Ev.stmt .txRollback, Ev.release])
      rw [hlog, hblog]
      simp [List.append_assoc]
    · rw [hu]
    · rw [hu]
      show s1.txSnap.getD s1.db = s.db
      rw [hsnap, hbsnap]
      rfl

/-! ## C8: every handler releases the connection exactly once -/

def isRelease : Ev → Bool
  | .release => true
  | .stmt _ => false

/-- Number of `connection.release()` calls recorded in a log. -/
def releaseCount (l : List Ev) : Nat := l.countP isRelease

theorem isRelease_of_plain {e : Ev} (h : Ev.plain e = true) :
    isRelease e = false := by
  cases e with
  | release => simp [Ev.plain] at h
  | stmt st => rfl

theorem releaseCount_of_stepOK {s s' : ExecSt} (h : StepOK s s') :
    releaseCount s'.log = releaseCount s.log := by
  obtain ⟨⟨d, hl, hp⟩, _⟩ := h
  rw [hl]
  unfold releaseCount
  rw [List.countP_append]
  have hz : d.countP isRelease = 0 := by
    rw [List.countP_eq_zero]
    intro e he
    simp [isRelease_of_plain (hp e he)]
  omega

theorem releaseCount_rel (x : ExecSt) :
    releaseCount (rel x).log = releaseCount x.log + 1 := by
  simp [rel, releaseCount, List.countP_append, isRelease]

theorem releaseCount_note (x : ExecSt) (st : Stmt) :
    releaseCount (note x st).log = releaseCount x.log := by
  simp [note, releaseCount, List.countP_append, isRelease]

/-- C8: the modelled request handlers — list, update, delete, and the
bulk import — record exactly one release on every exit path: for every starting
state (including every fault-injection point, i.e. both the success path
and any thrown statement failure) the final log holds exactly one more
release than the initial one. -/
theorem handlers_release_exactly_once (s : ExecSt) (rows : List Obj)
    (id : JSVal) (body : Obj) :
    releaseCount (getAllPracticaHandler s).2.log = releaseCount s.log + 1 ∧
    releaseCount (putPracticaHandler s id body).2.log = releaseCount s.log + 1 ∧
    releaseCount (deletePracticaHandler s id).2.log = releaseCount s.log + 1 ∧
    releaseCount (uploadHandler s rows).2.log = releaseCount s.log + 1 := by
  refine ⟨?_, ?_, ?_, ?_⟩
  · obtain ⟨r, s1, h⟩ : ∃ r s', issueSelectAll s "practica" = (r, s') :=
      ⟨_, _, Eq.refl _⟩
    have hc : releaseCount s1.log = releaseCount s.log := by
      have t := issueSelectAll_stepOK s "practica"
      rw [h] at t
      exact releaseCount_of_stepOK t
    unfold getAllPracticaHandler
    rw [h]
    cases r with
    | ok rs => rw [releaseCount_rel, hc]
    | error e => rw [releaseCount_rel, hc]
  · obtain ⟨r, s1, h⟩ : ∃ r s',
        issueUpdate s "practica" (practicaBodyObj body) "id" id = (r, s') :=
      ⟨_, _, Eq.refl _⟩
    have hc : releaseCount s1.log = releaseCount s.log := by
      have t := issueUpdate_stepOK s "practica" (practicaBodyObj body) "id" id
      rw [h] at t
      exact releaseCount_of_stepOK t
    unfold putPracticaHandler
    rw [h]
    cases r with
    | ok u => rw [releaseCount_rel, hc]
    | error e => rw [releaseCount_rel, hc]
  · obtain ⟨r, s1, h⟩ : ∃ r s', issueDelete s "practica" "id" id = (r, s') :=
      ⟨_, _, Eq.refl _⟩
    have hc : releaseCount s1.log = releaseCount s.log := by
      have t := issueDelete_stepOK s "practica" "id" id
      rw [h] at t
      exact releaseCount_of_stepOK t
    unfold deletePracticaHandler
    rw [h]
    cases r with
    | ok u => rw [releaseCount_rel, hc]
    | error e => rw [releaseCount_rel, hc]
  · obtain ⟨r, s1, h⟩ : ∃ r s', processRows (issueBegin s) rows = (r, s') :=
      ⟨_, _, Eq.refl _⟩
    have hc : releaseCount s1.log = releaseCount s.log := by
      have t := processRows_stepOK rows (issueBegin s)
      rw [h] at t
      have hc1 := releaseCount_of_stepOK t
      rw [hc1]
      exact releaseCount_note s .txBegin
    simp only [uploadHandler]
    rw [h]
    cases r with
    | ok u =>
      rw [show releaseCount (rel (issueCommit s1)).log
            = releaseCount (issueCommit s1).log + 1 from releaseCount_rel _]
      rw [show releaseCount (issueCommit s1).log = releaseCount s1.log from
            releaseCount_note s1 .txCommit]
      rw [hc]
    | error e =>
      rw [show releaseCount (rel (issueRollback s1)).log
            = releaseCount (issueRollback s1).log + 1 from releaseCount_rel _]
      rw [show releaseCount (issueRollback s1).log = releaseCount s1.log from
            releaseCount_note s1 .txRollback]
      rw [hc]
